import Mathlib

/-!
Verification development for the WeatherAnalyzer repository
(src/weather_app/utils.py and src/weather_app/app.py).

The pandas data frames of the source are embedded as association-list
rows together with an explicit list of column names; machine floats are
embedded as exact rationals; Python dictionary access that can raise
KeyError is embedded in the Except monad.
-/

namespace WeatherAnalyzer

/-- A data-frame row: association list from column name to rational value. -/
abbrev Row := List (String × ℚ)

/-- Column access inside a row, pandas row[k] (None when the key is absent). -/
def rowGet (r : Row) (k : String) : Option ℚ := List.lookup k r

/-- Column assignment inside a row, pandas row[k] = v: any previous binding
for the key is removed and the new value appended. -/
def rowSet (r : Row) (k : String) (v : ℚ) : Row :=
  List.filter (fun p => p.1 != k) r ++ [(k, v)]

/-- A pandas DataFrame: the column names and the rows. -/
structure Frame where
  cols : List String
  rows : List Row
deriving DecidableEq

/-- The 'main' block of one raw forecast sample; each field may be absent. -/
structure MainBlock where
  temp : Option ℚ
  temp_min : Option ℚ
  temp_max : Option ℚ
  humidity : Option ℚ
deriving DecidableEq

/-- One raw forecast sample object from the 'list' field of the payload.
Fields the source reads with dict.get carry their optional value; fields
the source reads with [] are also Option here and missing ones raise. -/
structure Item where
  dt : Option ℤ
  main : Option MainBlock
  rain3h : Option ℚ
  wind_speed : Option ℚ
  wind_gust : Option ℚ
  pop : Option ℚ
  clouds_all : Option ℚ
  visibility : Option ℚ
deriving DecidableEq

/-- One processed sample, the dict appended to processed_data in
process_forecast_data (utils.py lines 29-42). -/
structure Sample where
  datetime : ℤ
  date : ℤ
  temp : ℚ
  temp_min_3hr : ℚ
  temp_max_3hr : ℚ
  humidity : ℚ
  precipitation : ℚ
  wind_speed : ℚ
  wind_gust : ℚ
  pop : ℚ
  cloud_cover : ℚ
  visibility : ℚ
deriving DecidableEq

/-- Calendar date of a Unix timestamp: datetime.fromtimestamp(dt).date().
The local-time zone adds a fixed offset to dt before the floor division
by 86400 seconds; the offset is irrelevant to every property below, so it
is taken to be 0. -/
def dateOf (dt : ℤ) : ℤ := Int.fdiv dt 86400

/-- Python dict[key] access: KeyError when the key is absent. -/
def require {α : Type} (o : Option α) (key : String) : Except String α :=
  match o with
  | some v => Except.ok v
  | none => Except.error ("KeyError: " ++ key)

/-- Processing of one sample object (utils.py lines 28-42): required
fields raise KeyError when absent, optional fields take their defaults,
pop is scaled from a fraction to a percentage. -/
def processItem (item : Item) : Except String Sample := do
  let dt ← require item.dt "dt"
  let m ← require item.main "main"
  let temp ← require m.temp "temp"
  let tmin ← require m.temp_min "temp_min"
  let tmax ← require m.temp_max "temp_max"
  let hum ← require m.humidity "humidity"
  Except.ok
    { datetime := dt
      date := dateOf dt
      temp := temp
      temp_min_3hr := tmin
      temp_max_3hr := tmax
      humidity := hum
      precipitation := item.rain3h.getD 0
      wind_speed := item.wind_speed.getD 0
      wind_gust := item.wind_gust.getD 0
      pop := item.pop.getD 0 * 100
      cloud_cover := item.clouds_all.getD 0
      visibility := item.visibility.getD 10000 }

/-- The for-loop of utils.py lines 27-42: the first malformed sample
aborts the whole batch with its KeyError. -/
def processItems : List Item → Except String (List Sample)
  | [] => Except.ok []
  | it :: rest => do
    let s ← processItem it
    let ss ← processItems rest
    Except.ok (s :: ss)

/-- Arithmetic mean, the pandas mean reducer (groups are never empty). -/
def mean (l : List ℚ) : ℚ := l.sum / l.length

/-- The pandas max reducer over a group column (groups are never empty;
the 0 of the empty case is never reached). -/
def aggMax : List ℚ → ℚ
  | [] => 0
  | x :: xs => xs.foldl max x

/-- The pandas min reducer over a group column. -/
def aggMin : List ℚ → ℚ
  | [] => 0
  | x :: xs => xs.foldl min x

/-- The samples of one date group, in input order (pandas groupby keeps
the within-group order of the input). -/
def groupFor (samples : List Sample) (d : ℤ) : List Sample :=
  samples.filter (fun s => s.date = d)

/-- The distinct dates of the input, ascending: pandas groupby sorts the
group keys. -/
def datesSorted (samples : List Sample) : List ℤ :=
  ((samples.map Sample.date).toFinset).sort (· ≤ ·)

/-- The aggregated row for one date group (utils.py lines 52-64). -/
def summaryRow (samples : List Sample) (d : ℤ) : Row :=
  let g := groupFor samples d
  [("date", (d : ℚ)),
   ("avg_temp", mean (g.map Sample.temp)),
   ("min_temp", aggMin (g.map Sample.temp_min_3hr)),
   ("max_temp", aggMax (g.map Sample.temp_max_3hr)),
   ("avg_humidity", mean (g.map Sample.humidity)),
   ("total_precipitation", (g.map Sample.precipitation).sum),
   ("avg_wind_speed", mean (g.map Sample.wind_speed)),
   ("max_wind_speed", aggMax (g.map Sample.wind_speed)),
   ("max_wind_gust", aggMax (g.map Sample.wind_gust)),
   ("max_pop", aggMax (g.map Sample.pop)),
   ("avg_cloud_cover", mean (g.map Sample.cloud_cover)),
   ("avg_visibility", mean (g.map Sample.visibility))]

/-- The column names of the daily summary frame, also used for the empty
frame of the no-data branches (utils.py lines 21-23 and 45-47). -/
def summaryCols : List String :=
  ["date", "avg_temp", "min_temp", "max_temp", "avg_humidity",
   "total_precipitation", "avg_wind_speed", "max_wind_speed", "max_wind_gust",
   "max_pop", "avg_cloud_cover", "avg_visibility"]

/-- Groupby-aggregate, head(7), and the three scalar statistics
(utils.py lines 52-72). -/
def buildSummary (samples : List Sample) : Frame × ℕ × ℚ × ℚ :=
  let daily_summary : Frame :=
    { cols := summaryCols
      rows := ((datesSorted samples).take 7).map (summaryRow samples) }
  let rainy_days_count :=
    (((daily_summary.rows.filter
        (fun r => 0 < (rowGet r "total_precipitation").getD 0)).map
        (fun r => (rowGet r "date").getD 0)).dedup).length
  let overall_avg_temp :=
    if daily_summary.rows.isEmpty then 0
    else mean (daily_summary.rows.map (fun r => (rowGet r "avg_temp").getD 0))
  let overall_avg_humidity :=
    if daily_summary.rows.isEmpty then 0
    else mean (daily_summary.rows.map (fun r => (rowGet r "avg_humidity").getD 0))
  (daily_summary, rainy_days_count, overall_avg_temp, overall_avg_humidity)

/-- The result of the no-data branches of process_forecast_data. -/
def emptyResult : Frame × ℕ × ℚ × ℚ :=
  ({ cols := summaryCols, rows := [] }, 0, 0, 0)

/-- process_forecast_data (utils.py lines 18-72).  The input is the raw
payload: none is a falsy payload (None or empty dict), some none a truthy
dict without the top-level 'list' field, some (some items) a dict with it. -/
def process_forecast_data (forecast_data : Option (Option (List Item))) :
    Except String (Frame × ℕ × ℚ × ℚ) :=
  match forecast_data with
  | none => Except.ok emptyResult
  | some none => Except.ok emptyResult
  | some (some items) => do
    let samples ← processItems items
    if samples.isEmpty then Except.ok emptyResult
    else Except.ok (buildSummary samples)

/-- The per-day GDD of the loop body of calculate_gdd (utils.py 91-100). -/
def gddOfDay (t_min t_max base_temp : ℚ) : ℚ :=
  if t_max < base_temp then 0
  else
    let eff_t_min := max t_min base_temp
    let avg := (t_max + eff_t_min) / 2
    if avg < base_temp then 0 else avg - base_temp

/-- The gdd_series list of calculate_gdd (utils.py 84-101). -/
def gddList (rows : List Row) (base_temp : ℚ) : List ℚ :=
  rows.map (fun r =>
    gddOfDay ((rowGet r "min_temp").getD 0) ((rowGet r "max_temp").getD 0) base_temp)

/-- Running sums with a carried accumulator. -/
def cumsumFrom (acc : ℚ) : List ℚ → List ℚ
  | [] => []
  | x :: xs => (acc + x) :: cumsumFrom (acc + x) xs

/-- pandas Series.cumsum. -/
def cumsum (l : List ℚ) : List ℚ := cumsumFrom 0 l

/-- Assignment of a whole column, pandas df[k] = vals. -/
def setColumn (rows : List Row) (k : String) (vals : List ℚ) : List Row :=
  List.zipWith (fun r v => rowSet r k v) rows vals

/-- Record a column name, appending it when new. -/
def addCol (cols : List String) (c : String) : List String :=
  if c ∈ cols then cols else cols ++ [c]

/-- calculate_gdd (utils.py lines 74-105): unchanged input when the frame
is empty or a required temperature column is missing, otherwise the gdd
column and its running sum are attached. -/
def calculate_gdd (daily_df : Frame) (base_temp : ℚ) : Frame :=
  if daily_df.rows.isEmpty ∨ ¬("min_temp" ∈ daily_df.cols ∧ "max_temp" ∈ daily_df.cols) then
    daily_df
  else
    let gs := gddList daily_df.rows base_temp
    { cols := addCol (addCol daily_df.cols "gdd") "cumulative_gdd"
      rows := setColumn (setColumn daily_df.rows "gdd" gs) "cumulative_gdd" (cumsum gs) }

/-- The advisory findings emitted by the module-level advisory code of
app.py (lines 195-284).  Date and count payloads identify the triggering
rows; the formatted message strings are presentation and are not modelled. -/
inductive Finding
  | frostWarning (dates : List ℚ)
  | frostFavorable
  | heatWarning (count : ℕ)
  | sprayFavorable (dates : List ℚ)
  | sprayCaution (dates : List ℚ)
  | popInfo (dates : List ℚ)
  | tempWarmer
  | tempCooler
  | tempTypical
  | rainWetter
  | rainDrier
  | rainTypical
  | humidityWarning
  | normalsMissing (month : String)
deriving DecidableEq

/-- Frost advisory (app.py lines 196-209): the frame is filtered on the
min_temp column with no guard that the column exists, so a frame without
it raises a KeyError. -/
def frostRule (df : Frame) (frost_threshold : ℚ) : Except String (List Finding) :=
  if "min_temp" ∈ df.cols then
    let frost_days := df.rows.filter (fun r => (rowGet r "min_temp").getD 0 < frost_threshold)
    if frost_days.isEmpty then Except.ok [Finding.frostFavorable]
    else Except.ok [Finding.frostWarning (frost_days.map (fun r => (rowGet r "date").getD 0))]
  else Except.error "KeyError: min_temp"

/-- Heat stress advisory (app.py lines 212-217), guarded on the max_temp
column and silent when there is no hot day. -/
def heatRule (df : Frame) : List Finding :=
  if "max_temp" ∈ df.cols then
    let heat_stress_days := df.rows.filter (fun r => 30 < (rowGet r "max_temp").getD 0)
    if heat_stress_days.isEmpty then []
    else [Finding.heatWarning heat_stress_days.length]
  else []

/-- The spraying day classes of app.py lines 232-237. -/
inductive SprayClass
  | favorable
  | cautionLow
  | cautionHigh
deriving DecidableEq

/-- Per-day spraying classification (app.py lines 232-237): the favorable
band check comes first, then the low-wind check, then high wind. -/
def classifySpray (avg_ws max_g : ℚ) : SprayClass :=
  if 1.5 ≤ avg_ws ∧ avg_ws ≤ 4.5 ∧ max_g < 6 then SprayClass.favorable
  else if avg_ws < 1.5 then SprayClass.cautionLow
  else SprayClass.cautionHigh

/-- Spraying advisory (app.py lines 220-241), guarded on both wind
columns; one favorable finding and one caution finding, each only when
its group of days is non-empty. -/
def sprayRule (df : Frame) : List Finding :=
  if "avg_wind_speed" ∈ df.cols ∧ "max_wind_gust" ∈ df.cols then
    let cls := fun (r : Row) =>
      classifySpray ((rowGet r "avg_wind_speed").getD 0) ((rowGet r "max_wind_gust").getD 0)
    let can_spray_days := df.rows.filter (fun r => cls r = SprayClass.favorable)
    let caution_spray_days := df.rows.filter (fun r => ¬(cls r = SprayClass.favorable))
    (if can_spray_days.isEmpty then []
     else [Finding.sprayFavorable (can_spray_days.map (fun r => (rowGet r "date").getD 0))]) ++
    (if caution_spray_days.isEmpty then []
     else [Finding.sprayCaution (caution_spray_days.map (fun r => (rowGet r "date").getD 0))])
  else []

/-- Precipitation chance advisory (app.py lines 245-249), guarded on the
max_pop column and silent when no day exceeds 60 percent. -/
def popRule (df : Frame) : List Finding :=
  if "max_pop" ∈ df.cols then
    let high_pop_days := df.rows.filter (fun r => 60 < (rowGet r "max_pop").getD 0)
    if high_pop_days.isEmpty then []
    else [Finding.popInfo (high_pop_days.map (fun r => (rowGet r "date").getD 0))]
  else []

/-- The climate normals table of app.py lines 8-21: month name to
(average temperature, rainy days, frost days). -/
def NORMALS : List (String × ℚ × ℚ × ℚ) :=
  [("January", (1.5, 5, 20)), ("February", (3.5, 4, 15)), ("March", (7.5, 5, 10)),
   ("April", (12.5, 6, 2)), ("May", (17.5, 8, 0)), ("June", (21.5, 7, 0)),
   ("July", (24.0, 5, 0)), ("August", (23.5, 4, 0)), ("September", (19.0, 4, 1)),
   ("October", (13.0, 5, 5)), ("November", (7.5, 6, 12)), ("December", (2.5, 6, 18))]

/-- Temperature versus normal (app.py lines 267-272). -/
def tempCompare (overall_avg_temp norm_temp : ℚ) : Finding :=
  if overall_avg_temp > norm_temp + 2 then Finding.tempWarmer
  else if overall_avg_temp < norm_temp - 2 then Finding.tempCooler
  else Finding.tempTypical

/-- Rainy-day count versus the quartered monthly normal (app.py 274-279);
the drier branch also requires its lower bound to be positive. -/
def rainCompare (rainy_days_count : ℕ) (norm_rain_days : ℚ) : Finding :=
  if (rainy_days_count : ℚ) > norm_rain_days / 4 + 1 then Finding.rainWetter
  else if (rainy_days_count : ℚ) < norm_rain_days / 4 - 1 ∧ norm_rain_days / 4 - 1 > 0 then
    Finding.rainDrier
  else Finding.rainTypical

/-- The climate-normals block of app.py lines 256-284: when the selected
month is in the table it emits the two comparison findings and, inside
the same block, the high-humidity warning; when the month is absent it
emits only the configuration error. -/
def normalsSection (selected_month : String) (overall_avg_temp : ℚ)
    (rainy_days_count : ℕ) (overall_avg_humidity : ℚ) : List Finding :=
  match NORMALS.lookup selected_month with
  | some (norm_temp, norm_rain_days, _) =>
    [tempCompare overall_avg_temp norm_temp, rainCompare rainy_days_count norm_rain_days] ++
    (if overall_avg_humidity > 75 then [Finding.humidityWarning] else [])
  | none => [Finding.normalsMissing selected_month]

/-- The whole advisory section of app.py lines 195-284 in source order:
frost, heat stress, spraying, precipitation chance, climate normals. -/
def advisories (df : Frame) (frost_threshold : ℚ) (selected_month : String)
    (overall_avg_temp : ℚ) (rainy_days_count : ℕ) (overall_avg_humidity : ℚ) :
    Except String (List Finding) := do
  let frost ← frostRule df frost_threshold
  Except.ok (frost ++ heatRule df ++ sprayRule df ++ popRule df ++
    normalsSection selected_month overall_avg_temp rainy_days_count overall_avg_humidity)

/-- Modelled from the spec: the per-day GDD formula as the specification
states it, to be compared with gddOfDay translated from the source. -/
def gdd_spec (t_min t_max base_temp : ℚ) : ℚ :=
  if t_max < base_temp then 0
  else max ((t_max + max t_min base_temp) / 2 - base_temp) 0

/-- A sample object holding every field the source reads with plain
dictionary indexing (the fields whose absence raises a KeyError). -/
def itemOK (it : Item) : Bool :=
  it.dt.isSome &&
  (match it.main with
   | some m => m.temp.isSome && m.temp_min.isSome && m.temp_max.isSome && m.humidity.isSome
   | none => false)

/-- Total version of processItem used to state what the successful run
produces; agrees with processItem on items satisfying itemOK. -/
def toSample (it : Item) : Sample :=
  let m := it.main.getD ⟨none, none, none, none⟩
  { datetime := it.dt.getD 0
    date := dateOf (it.dt.getD 0)
    temp := (m.temp).getD 0
    temp_min_3hr := (m.temp_min).getD 0
    temp_max_3hr := (m.temp_max).getD 0
    humidity := (m.humidity).getD 0
    precipitation := it.rain3h.getD 0
    wind_speed := it.wind_speed.getD 0
    wind_gust := it.wind_gust.getD 0
    pop := it.pop.getD 0 * 100
    cloud_cover := it.clouds_all.getD 0
    visibility := it.visibility.getD 10000 }

/-! ### Helper lemmas: rows, columns, cumulative sums -/

theorem lookup_cons {α β : Type} [BEq α] (a b : α) (c : β) (l : List (α × β)) :
    List.lookup a ((b, c) :: l) = if a == b then some c else List.lookup a l := by
  cases h : a == b <;> simp [List.lookup, h]

theorem rowGet_rowSet_self (r : Row) (k : String) (v : ℚ) :
    rowGet (rowSet r k v) k = some v := by
  induction r with
  | nil => simp [rowGet, rowSet, lookup_cons]
  | cons p r ih =>
    obtain ⟨a, b⟩ := p
    by_cases h : a = k
    · simpa [rowSet, List.filter_cons, h] using ih
    · have hk : (k == a) = false := by
        simp only [beq_eq_false_iff_ne]
        exact fun hh => h hh.symm
      simpa [rowGet, rowSet, List.filter_cons, h, lookup_cons, hk] using ih

theorem rowGet_rowSet_ne (r : Row) (k k2 : String) (v : ℚ) (h : k2 ≠ k) :
    rowGet (rowSet r k v) k2 = rowGet r k2 := by
  have hk : (k2 == k) = false := by simp only [beq_eq_false_iff_ne]; exact h
  induction r with
  | nil => simp [rowGet, rowSet, lookup_cons, hk]
  | cons p r ih =>
    obtain ⟨a, b⟩ := p
    by_cases h2 : a = k
    · simpa [rowGet, rowSet, List.filter_cons, h2, lookup_cons, hk] using ih
    · by_cases h3 : k2 = a
      · simp [rowGet, rowSet, List.filter_cons, h2, lookup_cons, h3]
      · have hk3 : (k2 == a) = false := by simp only [beq_eq_false_iff_ne]; exact h3
        simpa [rowGet, rowSet, List.filter_cons, h2, lookup_cons, hk3] using ih

theorem setColumn_getElem? (rows : List Row) (k : String) (vals : List ℚ)
    (i : ℕ) (r : Row) (v : ℚ) (hr : rows[i]? = some r) (hv : vals[i]? = some v) :
    (setColumn rows k vals)[i]? = some (rowSet r k v) := by
  induction rows generalizing vals i with
  | nil => simp at hr
  | cons r0 rs ih =>
    cases vals with
    | nil => simp at hv
    | cons v0 vs =>
      cases i with
      | zero =>
        simp only [List.getElem?_cons_zero, Option.some_inj] at hr hv
        simp [setColumn, hr, hv]
      | succ n =>
        simp only [List.getElem?_cons_succ] at hr hv
        simpa [setColumn] using ih vs n hr hv

theorem setColumn_length (rows : List Row) (k : String) (vals : List ℚ) :
    (setColumn rows k vals).length = min rows.length vals.length := by
  simp [setColumn]

theorem cumsumFrom_length (acc : ℚ) (l : List ℚ) :
    (cumsumFrom acc l).length = l.length := by
  induction l generalizing acc with
  | nil => rfl
  | cons x xs ih => simp [cumsumFrom, ih]

theorem cumsumFrom_getElem? (l : List ℚ) (acc : ℚ) (i : ℕ) (h : i < l.length) :
    (cumsumFrom acc l)[i]? = some (acc + (l.take (i + 1)).sum) := by
  induction l generalizing acc i with
  | nil => simp at h
  | cons x xs ih =>
    cases i with
    | zero => simp [cumsumFrom]
    | succ n =>
      have hn : n < xs.length := by simpa using h
      simpa [cumsumFrom, add_assoc] using ih (acc + x) n hn

theorem gddList_length (rows : List Row) (b : ℚ) :
    (gddList rows b).length = rows.length := by
  simp [gddList]

theorem gddOfDay_nonneg (t_min t_max b : ℚ) : 0 ≤ gddOfDay t_min t_max b := by
  unfold gddOfDay
  dsimp only
  split
  · exact le_refl 0
  · split
    · exact le_refl 0
    · rename_i h1 h2
      exact sub_nonneg.mpr (not_lt.mp h2)

theorem gddOfDay_eq_spec (t_min t_max b : ℚ) :
    gddOfDay t_min t_max b = gdd_spec t_min t_max b := by
  unfold gddOfDay gdd_spec
  dsimp only
  split
  · rfl
  · rename_i h1
    split
    · rename_i h2
      exact (max_eq_right (le_of_lt (sub_neg.mpr h2))).symm
    · rename_i h2
      exact (max_eq_left (sub_nonneg.mpr (not_lt.mp h2))).symm

theorem calculate_gdd_rows_getElem? (df : Frame) (b : ℚ)
    (hmin : "min_temp" ∈ df.cols) (hmax : "max_temp" ∈ df.cols)
    (i : ℕ) (r : Row) (hr : df.rows[i]? = some r) :
    (calculate_gdd df b).rows[i]? =
      some (rowSet (rowSet r "gdd"
              (gddOfDay ((rowGet r "min_temp").getD 0) ((rowGet r "max_temp").getD 0) b))
            "cumulative_gdd" (((gddList df.rows b).take (i + 1)).sum)) := by
  have hi : i < df.rows.length := (List.getElem?_eq_some.mp hr).1
  have hne : ¬(df.rows.isEmpty = true) := by
    cases hh : df.rows with
    | nil => rw [hh] at hi; simp at hi
    | cons a l => simp [hh]
  have hguard : ¬(df.rows.isEmpty = true ∨ ¬("min_temp" ∈ df.cols ∧ "max_temp" ∈ df.cols)) :=
    fun h => h.elim hne (fun h2 => h2 ⟨hmin, hmax⟩)
  have hgs : (gddList df.rows b)[i]? =
      some (gddOfDay ((rowGet r "min_temp").getD 0) ((rowGet r "max_temp").getD 0) b) := by
    simp [gddList, hr]
  have hcs : (cumsum (gddList df.rows b))[i]? =
      some (((gddList df.rows b).take (i + 1)).sum) := by
    have := cumsumFrom_getElem? (gddList df.rows b) 0 i (by rwa [gddList_length])
    simpa [cumsum] using this
  have hmid := setColumn_getElem? df.rows "gdd" (gddList df.rows b) i r _ hr hgs
  have houter := setColumn_getElem? _ "cumulative_gdd" _ i _ _ hmid hcs
  unfold calculate_gdd
  rw [if_neg hguard]
  exact houter

theorem calculate_gdd_rows_length (df : Frame) (b : ℚ)
    (hmin : "min_temp" ∈ df.cols) (hmax : "max_temp" ∈ df.cols) :
    (calculate_gdd df b).rows.length = df.rows.length := by
  by_cases hne : df.rows.isEmpty = true
  · unfold calculate_gdd
    rw [if_pos (Or.inl hne)]
  · have hguard : ¬(df.rows.isEmpty = true ∨ ¬("min_temp" ∈ df.cols ∧ "max_temp" ∈ df.cols)) :=
      fun h => h.elim hne (fun h2 => h2 ⟨hmin, hmax⟩)
    unfold calculate_gdd
    rw [if_neg hguard]
    simp [setColumn_length, cumsum, cumsumFrom_length, gddList_length]

/-- The gdd column read back from the output frame is the gdd series. -/
theorem calculate_gdd_gdd_column (df : Frame) (b : ℚ)
    (hmin : "min_temp" ∈ df.cols) (hmax : "max_temp" ∈ df.cols) :
    (calculate_gdd df b).rows.map (fun row => (rowGet row "gdd").getD 0) =
      gddList df.rows b := by
  apply List.ext_getElem?
  intro i
  by_cases hi : i < df.rows.length
  · have hout := calculate_gdd_rows_getElem? df b hmin hmax i df.rows[i] (by simp [hi])
    rw [List.getElem?_map, hout]
    have hgd : rowGet (rowSet (rowSet df.rows[i] "gdd"
        (gddOfDay ((rowGet df.rows[i] "min_temp").getD 0)
          ((rowGet df.rows[i] "max_temp").getD 0) b))
        "cumulative_gdd" (((gddList df.rows b).take (i + 1)).sum)) "gdd" =
        some (gddOfDay ((rowGet df.rows[i] "min_temp").getD 0)
          ((rowGet df.rows[i] "max_temp").getD 0) b) := by
      rw [rowGet_rowSet_ne _ _ _ _ (by decide), rowGet_rowSet_self]
    simp only [Option.map_some', hgd]
    simp [gddList, List.getElem?_map, hi]
  · have h1 : (calculate_gdd df b).rows.length ≤ i := by
      rw [calculate_gdd_rows_length df b hmin hmax]; omega
    rw [List.getElem?_map, List.getElem?_eq_none h1,
      List.getElem?_eq_none (by rw [gddList_length]; omega)]
    rfl

theorem gddList_nonneg (rows : List Row) (b : ℚ) :
    ∀ x ∈ gddList rows b, 0 ≤ x := by
  intro x hx
  obtain ⟨r, _, rfl⟩ := List.mem_map.mp hx
  exact gddOfDay_nonneg _ _ _

theorem take_sum_mono (l : List ℚ) (hl : ∀ x ∈ l, 0 ≤ x) (i j : ℕ) (hij : i ≤ j) :
    (l.take i).sum ≤ (l.take j).sum := by
  have hj : j = i + (j - i) := by omega
  rw [hj, List.take_add, List.sum_append, le_add_iff_nonneg_right]
  apply List.sum_nonneg
  intro x hx
  exact hl x (List.mem_of_mem_drop (List.mem_of_mem_take hx))

/-- Claim C1: the per-day GDD value appended by calculate_gdd is 0 when
t_max is below base and max(((t_max + max(t_min, base)) / 2) - base, 0)
otherwise; it is never negative, and for t_min 8, t_max 20, base 10 it
equals 5. -/
theorem gdd_spec_scenario : gdd_spec 8 20 10 = (5 : ℚ) := by
  unfold gdd_spec
  rw [if_neg (by norm_num), show max (8 : ℚ) 10 = 10 from max_eq_right (by norm_num),
    show ((20 : ℚ) + 10) / 2 - 10 = 5 from by norm_num]
  exact max_eq_left (by norm_num)

theorem gdd_per_day_formula (df : Frame) (b : ℚ) (i : ℕ) (r : Row)
    (hmin : "min_temp" ∈ df.cols) (hmax : "max_temp" ∈ df.cols)
    (hr : df.rows[i]? = some r) (t_min t_max : ℚ)
    (h1 : rowGet r "min_temp" = some t_min) (h2 : rowGet r "max_temp" = some t_max) :
    ((calculate_gdd df b).rows[i]?.map (fun row => rowGet row "gdd"))
        = some (some (gdd_spec t_min t_max b))
    ∧ 0 ≤ gdd_spec t_min t_max b
    ∧ gdd_spec 8 20 10 = 5 := by
  refine ⟨?_, ?_, gdd_spec_scenario⟩
  · rw [calculate_gdd_rows_getElem? df b hmin hmax i r hr]
    simp only [Option.map_some']
    rw [rowGet_rowSet_ne _ _ _ _ (by decide), rowGet_rowSet_self, h1, h2]
    simp [gddOfDay_eq_spec]
  · rw [← gddOfDay_eq_spec]
    exact gddOfDay_nonneg _ _ _

theorem gdd_per_day_formula_witness :
    ((calculate_gdd ⟨["min_temp", "max_temp"], [[("min_temp", 8), ("max_temp", 20)]]⟩ 10).rows[0]?.map
        (fun row => rowGet row "gdd")) = some (some (gdd_spec 8 20 10))
    ∧ 0 ≤ gdd_spec 8 20 10
    ∧ gdd_spec 8 20 10 = 5 :=
  gdd_per_day_formula ⟨["min_temp", "max_temp"], [[("min_temp", 8), ("max_temp", 20)]]⟩ 10 0
    [("min_temp", 8), ("max_temp", 20)] (by decide) (by decide) (by decide) 8 20
    (by decide) (by decide)

/-- Claim C9: when the min_temp or the max_temp column is missing,
calculate_gdd returns the input frame unchanged. -/
theorem gdd_missing_columns_unchanged (df : Frame) (b : ℚ)
    (h : "min_temp" ∉ df.cols ∨ "max_temp" ∉ df.cols) :
    calculate_gdd df b = df := by
  unfold calculate_gdd
  rw [if_pos (Or.inr (fun hc => h.elim (fun ha => ha hc.1) (fun ha => ha hc.2)))]

theorem gdd_missing_columns_unchanged_witness :
    calculate_gdd ⟨["avg_temp"], [[("avg_temp", 12)]]⟩ 10 = ⟨["avg_temp"], [[("avg_temp", 12)]]⟩ :=
  gdd_missing_columns_unchanged ⟨["avg_temp"], [[("avg_temp", 12)]]⟩ 10 (Or.inl (by decide))

/-- Claim C6: after the GDD step the cumulative_gdd of row i equals the
sum of the gdd values of rows 0..i of the output, and the cumulative
values are non-decreasing along the rows. -/
theorem cumulative_gdd_running_sum (df : Frame) (b : ℚ)
    (hmin : "min_temp" ∈ df.cols) (hmax : "max_temp" ∈ df.cols) :
    (∀ (i : ℕ) (r : Row), (calculate_gdd df b).rows[i]? = some r →
      rowGet r "cumulative_gdd" =
        some ((((calculate_gdd df b).rows.take (i + 1)).map
          (fun row => (rowGet row "gdd").getD 0)).sum))
    ∧ (∀ (i j : ℕ) (ri rj : Row), i ≤ j →
        (calculate_gdd df b).rows[i]? = some ri →
        (calculate_gdd df b).rows[j]? = some rj →
        (rowGet ri "cumulative_gdd").getD 0 ≤ (rowGet rj "cumulative_gdd").getD 0) := by
  have key : ∀ i r, (calculate_gdd df b).rows[i]? = some r →
      rowGet r "cumulative_gdd" = some (((gddList df.rows b).take (i + 1)).sum) := by
    intro i r hr
    have hi : i < (calculate_gdd df b).rows.length := (List.getElem?_eq_some.mp hr).1
    rw [calculate_gdd_rows_length df b hmin hmax] at hi
    have hout := calculate_gdd_rows_getElem? df b hmin hmax i df.rows[i] (by simp [hi])
    rw [hout] at hr
    obtain rfl : _ = r := Option.some_inj.mp hr
    rw [rowGet_rowSet_self]
  constructor
  · intro i r hr
    rw [key i r hr, List.map_take, calculate_gdd_gdd_column df b hmin hmax]
  · intro i j ri rj hij hri hrj
    rw [key i ri hri, key j rj hrj]
    simp only [Option.getD_some]
    exact take_sum_mono _ (gddList_nonneg df.rows b) _ _ (by omega)

theorem cumulative_gdd_running_sum_witness :
    (∀ (i : ℕ) (r : Row), (calculate_gdd ⟨["min_temp", "max_temp"],
        [[("min_temp", 8), ("max_temp", 20)], [("min_temp", 12), ("max_temp", 30)]]⟩ 10).rows[i]? = some r →
      rowGet r "cumulative_gdd" =
        some ((((calculate_gdd ⟨["min_temp", "max_temp"],
          [[("min_temp", 8), ("max_temp", 20)], [("min_temp", 12), ("max_temp", 30)]]⟩ 10).rows.take (i + 1)).map
          (fun row => (rowGet row "gdd").getD 0)).sum))
    ∧ (∀ (i j : ℕ) (ri rj : Row), i ≤ j →
        (calculate_gdd ⟨["min_temp", "max_temp"],
          [[("min_temp", 8), ("max_temp", 20)], [("min_temp", 12), ("max_temp", 30)]]⟩ 10).rows[i]? = some ri →
        (calculate_gdd ⟨["min_temp", "max_temp"],
          [[("min_temp", 8), ("max_temp", 20)], [("min_temp", 12), ("max_temp", 30)]]⟩ 10).rows[j]? = some rj →
        (rowGet ri "cumulative_gdd").getD 0 ≤ (rowGet rj "cumulative_gdd").getD 0) :=
  cumulative_gdd_running_sum ⟨["min_temp", "max_temp"],
    [[("min_temp", 8), ("max_temp", 20)], [("min_temp", 12), ("max_temp", 30)]]⟩ 10
    (by decide) (by decide)

/-- Claim C7: a day is classified favorable for spraying exactly when the
average wind speed lies in [1.5, 4.5] and the max gust is below 6.0,
caution-low-wind exactly when the average wind speed is below 1.5, and
caution-high-wind otherwise; 3.0 and 5.0 give favorable. -/
theorem spray_classification (avg_ws max_g : ℚ) :
    (classifySpray avg_ws max_g = SprayClass.favorable ↔
      1.5 ≤ avg_ws ∧ avg_ws ≤ 4.5 ∧ max_g < 6)
    ∧ (classifySpray avg_ws max_g = SprayClass.cautionLow ↔ avg_ws < 1.5)
    ∧ (classifySpray avg_ws max_g = SprayClass.cautionHigh ↔
        ¬(1.5 ≤ avg_ws ∧ avg_ws ≤ 4.5 ∧ max_g < 6) ∧ ¬(avg_ws < 1.5))
    ∧ classifySpray 3 5 = SprayClass.favorable := by
  have hfav : classifySpray avg_ws max_g = SprayClass.favorable ↔
      1.5 ≤ avg_ws ∧ avg_ws ≤ 4.5 ∧ max_g < 6 := by
    unfold classifySpray
    split_ifs with h1 h2 <;> simp [h1]
  have hlow : classifySpray avg_ws max_g = SprayClass.cautionLow ↔ avg_ws < 1.5 := by
    unfold classifySpray
    split_ifs with h1 h2
    · have hnl : ¬avg_ws < 1.5 := not_lt.mpr h1.1
      simp [hnl]
    · simp [h2]
    · simp [h2]
  have hhigh : classifySpray avg_ws max_g = SprayClass.cautionHigh ↔
      ¬(1.5 ≤ avg_ws ∧ avg_ws ≤ 4.5 ∧ max_g < 6) ∧ ¬(avg_ws < 1.5) := by
    unfold classifySpray
    split_ifs with h1 h2
    · simp [h1]
    · simp [h2]
    · simp [h1, h2]
  have hscen : classifySpray 3 5 = SprayClass.favorable := by
    unfold classifySpray
    rw [if_pos (by norm_num)]
  exact ⟨hfav, hlow, hhigh, hscen⟩

/-- Claim C8: a falsy payload, a payload without the list field, and a
payload with an empty list all yield the empty summary frame, rainy-day
count 0 and overall averages 0, with no error. -/
theorem empty_payload_empty_result :
    process_forecast_data none = Except.ok (⟨summaryCols, []⟩, 0, 0, 0)
    ∧ process_forecast_data (some none) = Except.ok (⟨summaryCols, []⟩, 0, 0, 0)
    ∧ process_forecast_data (some (some [])) = Except.ok (⟨summaryCols, []⟩, 0, 0, 0) :=
  ⟨rfl, rfl, rfl⟩

/-! ### Error propagation: the aggregator and the advisory section -/

@[simp] theorem except_bind_ok {α β : Type} (a : α) (f : α → Except String β) :
    (Except.ok a : Except String α) >>= f = f a := rfl

@[simp] theorem except_bind_error {α β : Type} (e : String) (f : α → Except String β) :
    (Except.error e : Except String α) >>= f = Except.error e := rfl

theorem processItem_ok (it : Item) (h : itemOK it = true) :
    processItem it = Except.ok (toSample it) := by
  obtain ⟨dt, hdt⟩ : ∃ d, it.dt = some d := by
    cases hh : it.dt <;> simp [itemOK, hh] at h ⊢
  obtain ⟨m, hm⟩ : ∃ m, it.main = some m := by
    cases hh : it.main <;> simp [itemOK, hh] at h ⊢
  simp only [itemOK, hdt, hm, Option.isSome_some, Bool.true_and, Bool.and_eq_true] at h
  obtain ⟨⟨⟨ht, htmin⟩, htmax⟩, hhum⟩ := h
  obtain ⟨t, ht⟩ := Option.isSome_iff_exists.mp ht
  obtain ⟨tmin, htmin⟩ := Option.isSome_iff_exists.mp htmin
  obtain ⟨tmax, htmax⟩ := Option.isSome_iff_exists.mp htmax
  obtain ⟨hum, hhum⟩ := Option.isSome_iff_exists.mp hhum
  simp [processItem, require, toSample, hdt, hm, ht, htmin, htmax, hhum]

theorem processItems_ok (items : List Item) (h : ∀ it ∈ items, itemOK it = true) :
    processItems items = Except.ok (items.map toSample) := by
  induction items with
  | nil => rfl
  | cons it rest ih =>
    have h1 := h it (List.mem_cons_self it rest)
    have h2 : ∀ x ∈ rest, itemOK x = true := fun x hx => h x (List.mem_cons_of_mem it hx)
    simp [processItems, processItem_ok it h1, ih h2]

/-- Claim C2 counterexample: a payload whose list holds a sample without
the required dt field makes process_forecast_data fail with a KeyError
instead of returning a result. -/
theorem aggregator_missing_field_raises :
    process_forecast_data (some (some
      [⟨none, some ⟨some 10, some 8, some 20, some 50⟩, none, none, none, none, none, none⟩])) =
      Except.error "KeyError: dt" := rfl

/-- Claim C2 amended: when the top-level list is present and every sample
carries the required fields (dt and the four main temperatures and
humidity), process_forecast_data returns a result without error — missing
optional fields are defaulted, never thrown — but a sample missing a
required field fails the whole batch with a KeyError. -/
theorem aggregator_ok_when_required_fields_present (items : List Item)
    (h : ∀ it ∈ items, itemOK it = true) :
    ∃ res, process_forecast_data (some (some items)) = Except.ok res := by
  have hp := processItems_ok items h
  simp only [process_forecast_data, hp, except_bind_ok]
  by_cases he : (items.map toSample).isEmpty = true
  · rw [if_pos he]; exact ⟨_, rfl⟩
  · rw [if_neg he]; exact ⟨_, rfl⟩

theorem aggregator_ok_when_required_fields_present_witness :
    ∃ res, process_forecast_data (some (some
      [⟨some 0, some ⟨some 10, some 8, some 20, some 50⟩, none, none, none, none, none, none⟩])) =
      Except.ok res :=
  aggregator_ok_when_required_fields_present
    [⟨some 0, some ⟨some 10, some 8, some 20, some 50⟩, none, none, none, none, none, none⟩]
    (by decide)

theorem heatRule_skip (df : Frame) (h : "max_temp" ∉ df.cols) : heatRule df = [] := by
  unfold heatRule
  rw [if_neg h]

theorem sprayRule_skip (df : Frame)
    (h : "avg_wind_speed" ∉ df.cols ∨ "max_wind_gust" ∉ df.cols) : sprayRule df = [] := by
  unfold sprayRule
  rw [if_neg (fun hc => h.elim (fun ha => ha hc.1) (fun ha => ha hc.2))]

theorem popRule_skip (df : Frame) (h : "max_pop" ∉ df.cols) : popRule df = [] := by
  unfold popRule
  rw [if_neg h]

theorem frostRule_missing_column (df : Frame) (ft : ℚ) (h : "min_temp" ∉ df.cols) :
    frostRule df ft = Except.error "KeyError: min_temp" := by
  unfold frostRule
  rw [if_neg h]

/-- Claim C3 counterexample: a DailySummary frame lacking the min_temp
column makes the advisory evaluation fail with a KeyError (the frost rule
is not guarded), instead of skipping the rule silently. -/
theorem advisory_frost_keyerror :
    advisories ⟨["max_temp", "date"], [[("max_temp", 35), ("date", 0)]]⟩ 2 "May" 10 0 50 =
      Except.error "KeyError: min_temp" := rfl

/-- Claim C3 amended: the rules guarded on column presence — heat stress
(max_temp), spraying (avg_wind_speed and max_wind_gust), precipitation
chance (max_pop) — are skipped silently when their column is absent, the
other rules still being evaluated; the frost-risk rule is unguarded, so a
frame lacking min_temp raises a KeyError instead of being skipped. -/
theorem advisory_missing_column_behavior :
    (∀ (df : Frame) (ft : ℚ) (m : String) (oat : ℚ) (rdc : ℕ) (oah : ℚ),
      "max_temp" ∉ df.cols →
      advisories df ft m oat rdc oah =
        (frostRule df ft).map
          (fun f => f ++ sprayRule df ++ popRule df ++ normalsSection m oat rdc oah))
    ∧ (∀ (df : Frame) (ft : ℚ) (m : String) (oat : ℚ) (rdc : ℕ) (oah : ℚ),
      "avg_wind_speed" ∉ df.cols ∨ "max_wind_gust" ∉ df.cols →
      advisories df ft m oat rdc oah =
        (frostRule df ft).map
          (fun f => f ++ heatRule df ++ popRule df ++ normalsSection m oat rdc oah))
    ∧ (∀ (df : Frame) (ft : ℚ) (m : String) (oat : ℚ) (rdc : ℕ) (oah : ℚ),
      "max_pop" ∉ df.cols →
      advisories df ft m oat rdc oah =
        (frostRule df ft).map
          (fun f => f ++ heatRule df ++ sprayRule df ++ normalsSection m oat rdc oah))
    ∧ (∀ (df : Frame) (ft : ℚ) (m : String) (oat : ℚ) (rdc : ℕ) (oah : ℚ),
      "min_temp" ∉ df.cols →
      advisories df ft m oat rdc oah = Except.error "KeyError: min_temp") := by
  refine ⟨?_, ?_, ?_, ?_⟩ <;> intro df ft m oat rdc oah h
  · unfold advisories
    rw [heatRule_skip df h]
    cases hf : frostRule df ft <;> simp [Except.map]
  · unfold advisories
    rw [sprayRule_skip df h]
    cases hf : frostRule df ft <;> simp [Except.map]
  · unfold advisories
    rw [popRule_skip df h]
    cases hf : frostRule df ft <;> simp [Except.map]
  · unfold advisories
    rw [frostRule_missing_column df ft h]
    rfl

theorem advisory_missing_column_behavior_witness :
    advisories ⟨["min_temp", "date"], [[("min_temp", 1), ("date", 0)]]⟩ 2 "May" 10 0 50 =
      (frostRule ⟨["min_temp", "date"], [[("min_temp", 1), ("date", 0)]]⟩ 2).map
        (fun f => f ++ sprayRule ⟨["min_temp", "date"], [[("min_temp", 1), ("date", 0)]]⟩ ++
          popRule ⟨["min_temp", "date"], [[("min_temp", 1), ("date", 0)]]⟩ ++
          normalsSection "May" 10 0 50)
    ∧ advisories ⟨["max_temp"], []⟩ 2 "May" 10 0 50 = Except.error "KeyError: min_temp" :=
  ⟨advisory_missing_column_behavior.1
      ⟨["min_temp", "date"], [[("min_temp", 1), ("date", 0)]]⟩ 2 "May" 10 0 50 (by decide),
   advisory_missing_column_behavior.2.2.2 ⟨["max_temp"], []⟩ 2 "May" 10 0 50 (by decide)⟩

/-- Claim C4 counterexample: with overall humidity 80 the fungal-risk
warning is emitted when the selected month is in the normals table, but
with a month absent from the table it is suppressed (only the
configuration finding is produced), not produced exactly as before. -/
theorem humidity_suppressed_when_month_missing :
    Finding.humidityWarning ∈ normalsSection "May" 17.5 2 80
    ∧ Finding.humidityWarning ∉ normalsSection "Maybruary" 17.5 2 80
    ∧ Finding.normalsMissing "Maybruary" ∈ normalsSection "Maybruary" 17.5 2 80 := by
  have hMay : NORMALS.lookup "May" = some ((17.5 : ℚ), (8 : ℚ), (0 : ℚ)) := rfl
  have hMb : NORMALS.lookup "Maybruary" = (none : Option (ℚ × ℚ × ℚ)) := rfl
  refine ⟨?_, ?_, ?_⟩ <;> simp only [normalsSection, hMay, hMb] <;>
    (norm_num [tempCompare, rainCompare]; try decide)

/-- Claim C4 amended: for a selected month absent from the normals table
a configuration finding is reported and the entire normals block is
suppressed — the two normals comparisons and also the high-humidity
advisory, which the source nests inside the same block — while the
month-independent rules (frost, heat stress, spraying, precipitation) are
unaffected. -/
theorem missing_month_behavior (df : Frame) (ft : ℚ) (m : String)
    (oat : ℚ) (rdc : ℕ) (oah : ℚ) (h : NORMALS.lookup m = none) :
    advisories df ft m oat rdc oah =
      (frostRule df ft).map
        (fun f => f ++ heatRule df ++ sprayRule df ++ popRule df ++
          [Finding.normalsMissing m]) := by
  unfold advisories normalsSection
  rw [h]
  cases hf : frostRule df ft <;> simp [Except.map]

theorem missing_month_behavior_witness :
    advisories ⟨["min_temp", "date"], []⟩ 2 "Maybruary" 10 0 80 =
      (frostRule ⟨["min_temp", "date"], []⟩ 2).map
        (fun f => f ++ heatRule ⟨["min_temp", "date"], []⟩ ++
          sprayRule ⟨["min_temp", "date"], []⟩ ++ popRule ⟨["min_temp", "date"], []⟩ ++
          [Finding.normalsMissing "Maybruary"]) :=
  missing_month_behavior ⟨["min_temp", "date"], []⟩ 2 "Maybruary" 10 0 80 (by decide)

/-! ### Shape of the daily summary -/

theorem rowGet_summaryRow_date (samples : List Sample) (d : ℤ) :
    rowGet (summaryRow samples d) "date" = some (d : ℚ) := by
  simp [summaryRow, rowGet, lookup_cons]

theorem buildSummary_rows (samples : List Sample) :
    (buildSummary samples).1.rows = ((datesSorted samples).take 7).map (summaryRow samples) := rfl

/-- Claim C5: the summary of a non-empty sample sequence has at most 7
rows and at most one row per distinct input date; its date column is
exactly the first seven distinct input dates in ascending order (strictly
sorted, no synthetic dates). -/
theorem summary_rows_seven_distinct_sorted (samples : List Sample) (_hne : samples ≠ []) :
    ((buildSummary samples).1.rows.map (fun r => rowGet r "date") =
        ((datesSorted samples).take 7).map (fun d : ℤ => some (d : ℚ)))
    ∧ (buildSummary samples).1.rows.length ≤ 7
    ∧ (buildSummary samples).1.rows.length ≤ (samples.map Sample.date).dedup.length
    ∧ ((buildSummary samples).1.rows.map (fun r => (rowGet r "date").getD 0)).Pairwise (· < ·)
    ∧ (∀ d : ℤ, d ∈ datesSorted samples ↔ d ∈ samples.map Sample.date)
    ∧ (datesSorted samples).Nodup := by
  have hrows := buildSummary_rows samples
  have hdates : (buildSummary samples).1.rows.map (fun r => rowGet r "date") =
      ((datesSorted samples).take 7).map (fun d : ℤ => some (d : ℚ)) := by
    rw [hrows, List.map_map]
    exact List.map_congr_left (fun a _ => by simp [Function.comp, rowGet_summaryRow_date])
  refine ⟨hdates, ?_, ?_, ?_, ?_, ?_⟩
  · rw [hrows, List.length_map, List.length_take]
    exact min_le_left _ _
  · rw [hrows, List.length_map, List.length_take]
    have heq : (datesSorted samples).length = (samples.map Sample.date).dedup.length := by
      rw [datesSorted, Finset.length_sort, List.card_toFinset]
    rw [← heq]
    exact min_le_right _ _
  · have hD : (buildSummary samples).1.rows.map (fun r => (rowGet r "date").getD 0) =
        ((datesSorted samples).take 7).map (fun d => ((d : ℤ) : ℚ)) := by
      rw [hrows, List.map_map]
      exact List.map_congr_left (fun a _ => by simp [Function.comp, rowGet_summaryRow_date])
    rw [hD]
    exact (List.Pairwise.sublist (List.take_sublist 7 _) (Finset.sort_sorted_lt _)).map _
      (fun a b hab => by exact_mod_cast hab)
  · intro d
    rw [datesSorted, Finset.mem_sort, List.mem_toFinset]
  · exact Finset.sort_nodup _ _

theorem summary_rows_seven_distinct_sorted_witness :
    ((buildSummary [⟨0, 0, 10, 8, 20, 50, 0, 0, 0, 0, 0, 0⟩]).1.rows.map
        (fun r => rowGet r "date") =
      ((datesSorted [⟨0, 0, 10, 8, 20, 50, 0, 0, 0, 0, 0, 0⟩]).take 7).map
        (fun d : ℤ => some (d : ℚ)))
    ∧ (buildSummary [⟨0, 0, 10, 8, 20, 50, 0, 0, 0, 0, 0, 0⟩]).1.rows.length ≤ 7
    ∧ (buildSummary [⟨0, 0, 10, 8, 20, 50, 0, 0, 0, 0, 0, 0⟩]).1.rows.length ≤
        (([⟨0, 0, 10, 8, 20, 50, 0, 0, 0, 0, 0, 0⟩] : List Sample).map Sample.date).dedup.length
    ∧ ((buildSummary [⟨0, 0, 10, 8, 20, 50, 0, 0, 0, 0, 0, 0⟩]).1.rows.map
        (fun r => (rowGet r "date").getD 0)).Pairwise (· < ·)
    ∧ (∀ d : ℤ, d ∈ datesSorted [⟨0, 0, 10, 8, 20, 50, 0, 0, 0, 0, 0, 0⟩] ↔
        d ∈ ([⟨0, 0, 10, 8, 20, 50, 0, 0, 0, 0, 0, 0⟩] : List Sample).map Sample.date)
    ∧ (datesSorted [⟨0, 0, 10, 8, 20, 50, 0, 0, 0, 0, 0, 0⟩]).Nodup :=
  summary_rows_seven_distinct_sorted [⟨0, 0, 10, 8, 20, 50, 0, 0, 0, 0, 0, 0⟩] (by decide)

/-! ### Permutation invariance of the aggregation -/

theorem foldl_max_le (l : List ℚ) (a : ℚ) : a ≤ l.foldl max a := by
  induction l generalizing a with
  | nil => exact le_refl a
  | cons x xs ih => exact le_trans (le_max_left a x) (ih (max a x))

theorem le_foldl_max_of_mem {l : List ℚ} {b : ℚ} (hb : b ∈ l) (a : ℚ) :
    b ≤ l.foldl max a := by
  induction l generalizing a with
  | nil => exact absurd hb (List.not_mem_nil b)
  | cons x xs ih =>
    rcases List.mem_cons.mp hb with h | h
    · rw [h]
      exact le_trans (le_max_right a x) (foldl_max_le xs (max a x))
    · exact ih h (max a x)

theorem foldl_max_mem (l : List ℚ) (a : ℚ) : l.foldl max a = a ∨ l.foldl max a ∈ l := by
  induction l generalizing a with
  | nil => exact Or.inl rfl
  | cons x xs ih =>
    rcases ih (max a x) with h | h
    · rcases max_choice a x with h2 | h2
      · rw [List.foldl_cons, h, h2]
        exact Or.inl rfl
      · rw [List.foldl_cons, h, h2]
        exact Or.inr (List.mem_cons_self x xs)
    · exact Or.inr (List.mem_cons_of_mem x h)

theorem aggMax_mem {l : List ℚ} (h : l ≠ []) : aggMax l ∈ l := by
  cases l with
  | nil => exact absurd rfl h
  | cons x xs =>
    rcases foldl_max_mem xs x with h1 | h1
    · rw [aggMax, h1]
      exact List.mem_cons_self x xs
    · rw [aggMax]
      exact List.mem_cons_of_mem x h1

theorem le_aggMax_of_mem {l : List ℚ} {b : ℚ} (hb : b ∈ l) : b ≤ aggMax l := by
  cases l with
  | nil => exact absurd hb (List.not_mem_nil b)
  | cons x xs =>
    rcases List.mem_cons.mp hb with h | h
    · rw [h, aggMax]
      exact foldl_max_le xs x
    · rw [aggMax]
      exact le_foldl_max_of_mem h x

theorem aggMax_perm {l l2 : List ℚ} (h : l.Perm l2) : aggMax l = aggMax l2 := by
  cases hl : l with
  | nil =>
    rw [hl] at h
    rw [h.symm.eq_nil]
  | cons x xs =>
    have hne : l ≠ [] := by rw [hl]; exact List.cons_ne_nil x xs
    have hne2 : l2 ≠ [] := by
      intro hh
      rw [hh] at h
      exact hne h.eq_nil
    rw [← hl]
    exact le_antisymm
      (le_aggMax_of_mem (h.subset (aggMax_mem hne)))
      (le_aggMax_of_mem (h.symm.subset (aggMax_mem hne2)))

theorem foldl_min_ge (l : List ℚ) (a : ℚ) : l.foldl min a ≤ a := by
  induction l generalizing a with
  | nil => exact le_refl a
  | cons x xs ih => exact le_trans (ih (min a x)) (min_le_left a x)

theorem foldl_min_le_of_mem {l : List ℚ} {b : ℚ} (hb : b ∈ l) (a : ℚ) :
    l.foldl min a ≤ b := by
  induction l generalizing a with
  | nil => exact absurd hb (List.not_mem_nil b)
  | cons x xs ih =>
    rcases List.mem_cons.mp hb with h | h
    · rw [h]
      exact le_trans (foldl_min_ge xs (min a x)) (min_le_right a x)
    · exact ih h (min a x)

theorem foldl_min_mem (l : List ℚ) (a : ℚ) : l.foldl min a = a ∨ l.foldl min a ∈ l := by
  induction l generalizing a with
  | nil => exact Or.inl rfl
  | cons x xs ih =>
    rcases ih (min a x) with h | h
    · rcases min_choice a x with h2 | h2
      · rw [List.foldl_cons, h, h2]
        exact Or.inl rfl
      · rw [List.foldl_cons, h, h2]
        exact Or.inr (List.mem_cons_self x xs)
    · exact Or.inr (List.mem_cons_of_mem x h)

theorem aggMin_mem {l : List ℚ} (h : l ≠ []) : aggMin l ∈ l := by
  cases l with
  | nil => exact absurd rfl h
  | cons x xs =>
    rcases foldl_min_mem xs x with h1 | h1
    · rw [aggMin, h1]
      exact List.mem_cons_self x xs
    · rw [aggMin]
      exact List.mem_cons_of_mem x h1

theorem aggMin_le_of_mem {l : List ℚ} {b : ℚ} (hb : b ∈ l) : aggMin l ≤ b := by
  cases l with
  | nil => exact absurd hb (List.not_mem_nil b)
  | cons x xs =>
    rcases List.mem_cons.mp hb with h | h
    · rw [h, aggMin]
      exact foldl_min_ge xs x
    · rw [aggMin]
      exact foldl_min_le_of_mem h x

theorem aggMin_perm {l l2 : List ℚ} (h : l.Perm l2) : aggMin l = aggMin l2 := by
  cases hl : l with
  | nil =>
    rw [hl] at h
    rw [h.symm.eq_nil]
  | cons x xs =>
    have hne : l ≠ [] := by rw [hl]; exact List.cons_ne_nil x xs
    have hne2 : l2 ≠ [] := by
      intro hh
      rw [hh] at h
      exact hne h.eq_nil
    rw [← hl]
    exact le_antisymm
      (aggMin_le_of_mem (h.symm.subset (aggMin_mem hne2)))
      (aggMin_le_of_mem (h.subset (aggMin_mem hne)))

theorem mean_perm {l l2 : List ℚ} (h : l.Perm l2) : mean l = mean l2 := by
  rw [mean, mean, h.sum_eq, h.length_eq]

theorem groupFor_perm {s1 s2 : List Sample} (h : s1.Perm s2) (d : ℤ) :
    (groupFor s1 d).Perm (groupFor s2 d) := by
  unfold groupFor
  exact h.filter _

theorem summaryRow_perm {s1 s2 : List Sample} (h : s1.Perm s2) (d : ℤ) :
    summaryRow s1 d = summaryRow s2 d := by
  have hm : ∀ f : Sample → ℚ, ((groupFor s1 d).map f).Perm ((groupFor s2 d).map f) :=
    fun f => (groupFor_perm h d).map f
  simp only [summaryRow]
  rw [mean_perm (hm Sample.temp), aggMin_perm (hm Sample.temp_min_3hr),
    aggMax_perm (hm Sample.temp_max_3hr), mean_perm (hm Sample.humidity),
    (hm Sample.precipitation).sum_eq, mean_perm (hm Sample.wind_speed),
    aggMax_perm (hm Sample.wind_speed), aggMax_perm (hm Sample.wind_gust),
    aggMax_perm (hm Sample.pop), mean_perm (hm Sample.cloud_cover),
    mean_perm (hm Sample.visibility)]

theorem datesSorted_perm {s1 s2 : List Sample} (h : s1.Perm s2) :
    datesSorted s1 = datesSorted s2 := by
  rw [datesSorted, datesSorted,
    List.toFinset_eq_of_perm _ _ (h.map Sample.date)]

theorem buildSummary_perm {s1 s2 : List Sample} (h : s1.Perm s2) :
    buildSummary s1 = buildSummary s2 := by
  have hfun : summaryRow s1 = summaryRow s2 := funext (summaryRow_perm h)
  unfold buildSummary
  rw [datesSorted_perm h, hfun]

/-- Claim C10: for samples whose required fields are all present, the
aggregator result — summary frame and all three statistics — is invariant
under any permutation of the sample list. -/
theorem aggregator_permutation_invariant (items1 items2 : List Item)
    (hperm : items1.Perm items2) (hok : ∀ it ∈ items1, itemOK it = true) :
    process_forecast_data (some (some items1)) = process_forecast_data (some (some items2)) := by
  have hok2 : ∀ it ∈ items2, itemOK it = true := fun it hit => hok it (hperm.mem_iff.mpr hit)
  have h1 := processItems_ok items1 hok
  have h2 := processItems_ok items2 hok2
  have hp : (items1.map toSample).Perm (items2.map toSample) := hperm.map toSample
  simp only [process_forecast_data, h1, h2, except_bind_ok]
  have hie : (items1.map toSample).isEmpty = (items2.map toSample).isEmpty := by
    by_cases hz : items1.map toSample = []
    · have hz2 : items2.map toSample = [] := by
        rw [hz] at hp
        exact hp.symm.eq_nil
      rw [hz, hz2]
    · have hz2 : items2.map toSample ≠ [] := by
        intro hh
        rw [hh] at hp
        exact hz hp.eq_nil
      rw [List.isEmpty_eq_false.mpr hz, List.isEmpty_eq_false.mpr hz2]
  rw [hie]
  by_cases he : (items2.map toSample).isEmpty = true
  · rw [if_pos he, if_pos he]
  · rw [if_neg he, if_neg he, buildSummary_perm hp]

theorem aggregator_permutation_invariant_witness :
    process_forecast_data (some (some
      [⟨some 0, some ⟨some 10, some 8, some 20, some 50⟩, none, none, none, none, none, none⟩,
       ⟨some 86400, some ⟨some 12, some 9, some 21, some 55⟩, some 2, none, none, none, none, none⟩])) =
    process_forecast_data (some (some
      [⟨some 86400, some ⟨some 12, some 9, some 21, some 55⟩, some 2, none, none, none, none, none⟩,
       ⟨some 0, some ⟨some 10, some 8, some 20, some 50⟩, none, none, none, none, none, none⟩])) :=
  aggregator_permutation_invariant
    [⟨some 0, some ⟨some 10, some 8, some 20, some 50⟩, none, none, none, none, none, none⟩,
     ⟨some 86400, some ⟨some 12, some 9, some 21, some 55⟩, some 2, none, none, none, none, none⟩]
    [⟨some 86400, some ⟨some 12, some 9, some 21, some 55⟩, some 2, none, none, none, none, none⟩,
     ⟨some 0, some ⟨some 10, some 8, some 20, some 50⟩, none, none, none, none, none, none⟩]
    (List.Perm.swap
      (⟨some 86400, some ⟨some 12, some 9, some 21, some 55⟩, some 2, none, none, none, none, none⟩ : Item)
      (⟨some 0, some ⟨some 10, some 8, some 20, some 50⟩, none, none, none, none, none, none⟩ : Item) [])
    (by decide)

end WeatherAnalyzer
